import Mathlib

/-!
Shallow embedding of the Nutrimate backend (src/backend/main.py), a FastAPI
service over a Firestore document store, together with proofs about the
behaviour of its routes.

Modelling conventions:
* A Firestore collection is an association list from document id to document;
  `document(id).set(...)` is an upsert (`kvSet`), `document(id).get()` is a
  lookup (`kvGet`).  `set(..., merge=True)` is modelled by reading the old
  document and writing the field-merged one.
* Firestore documents are partial maps, so user documents have `Option`
  fields; `dict.get(k, d)` becomes `Option.getD`.
* Python floats are modelled as exact rationals (`ℚ`); `round` is Python's
  round-half-to-even.
* `datetime.utcnow()` is modelled by a `UTC` value carried in the state: its
  `date` component is the 10-character `YYYY-MM-DD` string of
  `strftime("%Y-%m-%d")`, `isoformat` is `date ++ clock`, and `epoch` is the
  same instant in seconds, used for token expiry arithmetic.
* Strings stored in meal documents (`created`) are `List Char`, so that the
  slice `created[:10]` is `List.take 10`.
* `bcrypt` is an external primitive used as an opaque library call; it is
  modelled as an ideal collision-free hash: `checkpw p h` succeeds exactly
  when `h` was produced by `hashpw p`.
* `jwt.encode`/`jwt.decode` (HS256) are opaque library calls; a token is
  modelled as its claim set plus the signing key, and `decode` succeeds
  exactly when the key matches and the `exp` claim has not passed, which is
  the contract of the library.
* `base64.b64decode` is an opaque library call; it is modelled by a function
  returning the byte length of the decode (all the route uses), failing on
  the inputs the library rejects (wrong length mod 4 / bad padding after
  discarding non-alphabet characters).
* Each route is a function from the store state (plus the request and, for
  protected routes, the authenticated email FastAPI injects via
  `Depends(get_current_user)`) to the new state and an outcome: `ok` a
  response, `err status detail` for `HTTPException`, or `fault` for an
  unhandled Python exception such as a `KeyError` on a missing field.
-/

namespace Nutrimate

/-! ### Document collections as association lists -/

def kvGet {κ α : Type} [BEq κ] : List (κ × α) → κ → Option α
  | [], _ => none
  | p :: ps, k => if p.1 == k then some p.2 else kvGet ps k

def kvSet {κ α : Type} [BEq κ] : List (κ × α) → κ → α → List (κ × α)
  | [], k, v => [(k, v)]
  | p :: ps, k, v => if p.1 == k then (k, v) :: ps else p :: kvSet ps k v

theorem kvGet_kvSet_self {κ α : Type} [BEq κ] [LawfulBEq κ]
    (l : List (κ × α)) (k : κ) (v : α) : kvGet (kvSet l k v) k = some v := by
  induction l with
  | nil => simp [kvGet, kvSet]
  | cons p ps ih =>
    by_cases h : p.1 == k
    · simp [kvSet, h, kvGet]
    · simp only [kvSet, h, Bool.false_eq_true, if_false, kvGet, ih]

theorem kvSet_of_kvGet_none {κ α : Type} [BEq κ]
    (l : List (κ × α)) (k : κ) (v : α) (h : kvGet l k = none) :
    kvSet l k v = l ++ [(k, v)] := by
  induction l with
  | nil => simp [kvSet]
  | cons p ps ih =>
    by_cases hp : p.1 == k
    · simp [kvGet, hp] at h
    · simp only [kvGet, hp, Bool.false_eq_true, if_false] at h
      simp [kvSet, hp, ih h]

/-! ### UTC instants -/

structure UTC where
  date : List Char
  clock : List Char
  epoch : Nat
deriving DecidableEq, Repr

def UTC.isoformat (t : UTC) : List Char := t.date ++ t.clock

/-! ### bcrypt, modelled as an ideal collision-free hash -/

def hashpw (pw : String) : String := pw

def checkpw (pw : String) (stored : String) : Bool := hashpw pw == stored

/-! ### JWT (HS256), modelled as claim set plus signing key -/

def SECRET_KEY : String := "supersecretkey"

def ACCESS_TOKEN_EXPIRE_MINUTES : Nat := 60 * 24

structure JwtPayload where
  sub : Option String
  exp : Nat
deriving DecidableEq, Repr

structure Jwt where
  payload : JwtPayload
  key : String
deriving DecidableEq, Repr

def create_access_token (sub : String) (now : Nat) : Jwt :=
  { payload := { sub := some sub, exp := now + ACCESS_TOKEN_EXPIRE_MINUTES * 60 },
    key := SECRET_KEY }

/-- The value carried by the `Authorization` header of a request: absent,
present but not of the form `Bearer <token>`, or a bearer token that is
either a well-formed JWT or an undecodable string. -/
inductive AuthHeader where
  | missing
  | notBearer
  | bearer (t : Jwt)
  | bearerMalformed
deriving DecidableEq, Repr

/-! ### Route outcomes -/

inductive Out (α : Type) where
  | ok (a : α)
  | err (status : Nat) (detail : String)
  | fault
deriving DecidableEq, Repr

def get_current_user (h : AuthHeader) (nowEpoch : Nat) : Out String :=
  match h with
  | .missing => .err 401 "Missing token"
  | .notBearer => .err 401 "Missing token"
  | .bearerMalformed => .err 401 "Invalid token"
  | .bearer j =>
    if j.key ≠ SECRET_KEY then .err 401 "Invalid token"
    else if j.payload.exp < nowEpoch then .err 401 "Token expired"
    else
      match j.payload.sub with
      | none => .err 401 "Invalid token"
      | some email => if email = "" then .err 401 "Invalid token" else .ok email

/-! ### base64 decoding (length only) -/

def b64IsAlphabet (c : Char) : Bool :=
  c.isAlpha || c.isDigit || c == '+' || c == '/'

/-- Byte length of `base64.b64decode` on a string, `none` when the library
raises: after discarding characters outside the alphabet, the length must be
a multiple of 4 and padding must be at most two trailing `=`. -/
def b64decodeLen (s : String) : Option Nat :=
  let cs := s.data.filter (fun c => b64IsAlphabet c || c == '=')
  let body := cs.takeWhile (fun c => ¬ c == '=')
  let pad := cs.length - body.length
  if (cs.drop body.length).all (fun c => c == '=') ∧ pad ≤ 2 ∧ cs.length % 4 = 0 then
    some (3 * (cs.length / 4) - pad)
  else
    none

/-! ### Python rounding on exact rationals -/

/-- Python `round(x)`: nearest integer, ties to even. -/
def pyRound (x : ℚ) : ℤ :=
  let f := x.floor
  let r := x - (f : ℚ)
  if r < 1/2 then f
  else if 1/2 < r then f + 1
  else if f % 2 = 0 then f else f + 1

/-- Python `round(x, 1)`: nearest multiple of 1/10, ties to even. -/
def pyRound1 (x : ℚ) : ℚ := (pyRound (10 * x) : ℚ) / 10

/-! ### Data model -/

/-- A document of the `users` collection.  Firestore documents are partial
maps, so every field is optional; `register` writes all of them, while
`set_goal` with `merge=True` on a missing account writes only `goal`. -/
structure UserDoc where
  name : Option String
  email : Option String
  password : Option String
  goal : Option Int
  bowl_size : Option Int
  target_weight : Option ℚ
deriving DecidableEq, Repr

/-- The macro breakdown stored under the `"macros"` key of a meal document.
In the source it is a plain dict; the four keys the system reads are
modelled as rational fields (`.get("calories", 0)` on a dict that always
carries the key collapses to field access). -/
structure Macros where
  calories : ℚ
  protein : ℚ
  carbs : ℚ
  fats : ℚ
deriving DecidableEq, Repr

/-- A document of the `meals` collection. -/
structure MealDoc where
  email : String
  name : String
  macros : Macros
  created : List Char
deriving DecidableEq, Repr

/-- The whole Firestore state plus the current instant. -/
structure State where
  users : List (String × UserDoc)
  meals : List (List Char × MealDoc)
  now : UTC
deriving DecidableEq, Repr

/-- The meal document id `f"{email}_{datetime.utcnow().isoformat()}"`. -/
def mealId (email : String) (iso : List Char) : List Char :=
  email.data ++ '_' :: iso

/-! ### Request and response shapes -/

structure RegisterReq where
  name : String
  email : String
  password : String
  bowl_size : Int
  target_weight : ℚ
deriving DecidableEq, Repr

structure LoginReq where
  email : String
  password : String
deriving DecidableEq, Repr

structure GoalReq where
  goal : Int
deriving DecidableEq, Repr

structure MealReq where
  name : String
  macros : Macros
deriving DecidableEq, Repr

structure AnalyzeReq where
  image : String
deriving DecidableEq, Repr

structure SimpleResp where
  ok : Bool
  msg : String
deriving DecidableEq, Repr

structure LoginResp where
  ok : Bool
  token : Jwt
  email : String
  name : String
  bowl_size : Int
  target_weight : ℚ
deriving DecidableEq, Repr

structure AnalyzeResp where
  ok : Bool
  macros : Macros
  bowl_size : Int
deriving DecidableEq, Repr

structure TodayResp where
  email : String
  date : List Char
  calories : ℚ
  meals : List MealDoc
deriving DecidableEq, Repr

structure HistoryResp where
  email : String
  meals : List MealDoc
deriving DecidableEq, Repr

structure GetGoalResp where
  goal : Int
deriving DecidableEq, Repr

structure SetGoalResp where
  ok : Bool
  goal : Int
deriving DecidableEq, Repr

/-! ### Routes -/

/-- `POST /register`. -/
def register (s : State) (data : RegisterReq) : State × Out SimpleResp :=
  match kvGet s.users data.email with
  | some _ => (s, .err 400 "User already exists")
  | none =>
    let hashed_pw := hashpw data.password
    let doc : UserDoc :=
      { name := some data.name, email := some data.email,
        password := some hashed_pw, goal := some 2000,
        bowl_size := some data.bowl_size,
        target_weight := some data.target_weight }
    ({ s with users := kvSet s.users data.email doc },
     .ok { ok := true, msg := "User registered successfully" })

/-- `POST /login`.  `user["password"]` and `user["email"]` are mandatory
indexing: a missing key is an uncaught `KeyError`, i.e. `fault`. -/
def login (s : State) (data : LoginReq) : State × Out LoginResp :=
  match kvGet s.users data.email with
  | none => (s, .err 401 "Invalid credentials")
  | some user =>
    match user.password with
    | none => (s, .fault)
    | some stored =>
      if ¬ checkpw data.password stored then (s, .err 401 "Invalid credentials")
      else
        match user.email with
        | none => (s, .fault)
        | some uemail =>
          (s, .ok { ok := true,
                    token := create_access_token uemail s.now.epoch,
                    email := uemail,
                    name := user.name.getD "",
                    bowl_size := user.bowl_size.getD 250,
                    target_weight := user.target_weight.getD 0 })

/-- `POST /analyze` (after `get_current_user` resolved `email`). -/
def analyze (s : State) (req : AnalyzeReq) (email : String) :
    State × Out AnalyzeResp :=
  match kvGet s.users email with
  | none => (s, .err 404 "User not found")
  | some user =>
    let bowl_size := user.bowl_size.getD 250
    let sLen : Nat := (b64decodeLen req.image).getD 25000
    let base_cal : Nat := 150 + sLen % 151
    let base_pro : Nat := 5 + sLen % 16
    let base_car : Nat := 20 + sLen % 31
    let base_fat : Nat := 5 + sLen % 11
    let factor : ℚ := (bowl_size : ℚ) / 100
    let macros : Macros :=
      { calories := (pyRound ((base_cal : ℚ) * factor) : ℚ),
        protein := pyRound1 ((base_pro : ℚ) * factor),
        carbs := pyRound1 ((base_car : ℚ) * factor),
        fats := pyRound1 ((base_fat : ℚ) * factor) }
    let meal_id := mealId email s.now.isoformat
    let doc : MealDoc :=
      { email := email, name := "Bowl Meal", macros := macros,
        created := s.now.isoformat }
    ({ s with meals := kvSet s.meals meal_id doc },
     .ok { ok := true, macros := macros, bowl_size := bowl_size })

/-- `POST /add-meal` (after `get_current_user` resolved `email`). -/
def add_meal (s : State) (data : MealReq) (email : String) :
    State × Out SimpleResp :=
  let meal_id := mealId email s.now.isoformat
  let doc : MealDoc :=
    { email := email, name := data.name, macros := data.macros,
      created := s.now.isoformat }
  ({ s with meals := kvSet s.meals meal_id doc },
   .ok { ok := true, msg := "Meal added" })

/-- The body of the `for doc in meals_ref` loop of `GET /today`:
accumulate the calorie total and collect today's meals. -/
def todayStep (today_str : List Char) (acc : ℚ × List MealDoc) (m : MealDoc) :
    ℚ × List MealDoc :=
  if m.created.take 10 == today_str then
    (acc.1 + m.macros.calories, acc.2 ++ [m])
  else acc

/-- `GET /today` (after `get_current_user` resolved `email`). -/
def today (s : State) (email : String) : State × Out TodayResp :=
  let today_str := s.now.date
  let mine := (s.meals.map (·.2)).filter (fun m => m.email == email)
  let r := mine.foldl (todayStep today_str) (0, [])
  (s, .ok { email := email, date := today_str, calories := r.1, meals := r.2 })

/-- Lexicographic comparison of `List Char`, the order Python uses on the
`created` strings in `meals.sort(key=..., reverse=True)`. -/
def strLe : List Char → List Char → Bool
  | [], _ => true
  | _ :: _, [] => false
  | a :: as, b :: bs =>
    if a < b then true else if b < a then false else strLe as bs

/-- `GET /history` (after `get_current_user` resolved `email`).
`list.sort(key=..., reverse=True)` is a stable descending sort. -/
def get_history (s : State) (email : String) : State × Out HistoryResp :=
  let meals := (s.meals.map (·.2)).filter (fun m => m.email == email)
  let sorted := meals.mergeSort (fun a b => strLe b.created a.created)
  (s, .ok { email := email, meals := sorted })

/-- `GET /get-goal` (after `get_current_user` resolved `email`). -/
def get_goal (s : State) (email : String) : State × Out GetGoalResp :=
  match kvGet s.users email with
  | some doc => (s, .ok { goal := doc.goal.getD 2000 })
  | none => (s, .ok { goal := 2000 })

/-- `POST /set-goal` (after `get_current_user` resolved `email`).
`set({"goal": ...}, merge=True)` keeps the other fields of an existing
document and creates a goal-only document otherwise. -/
def set_goal (s : State) (data : GoalReq) (email : String) :
    State × Out SetGoalResp :=
  if data.goal ≤ 0 then (s, .err 400 "Goal must be positive")
  else
    let doc : UserDoc :=
      match kvGet s.users email with
      | some u => { u with goal := some data.goal }
      | none => { name := none, email := none, password := none,
                  goal := some data.goal, bowl_size := none,
                  target_weight := none }
    ({ s with users := kvSet s.users email doc },
     .ok { ok := true, goal := data.goal })

/-! ### Definitions taken from the specification's words (for comparison) -/

/-- The four elementwise totals. -/
structure SpecTotals where
  calories : ℚ
  protein : ℚ
  carbs : ℚ
  fats : ℚ
deriving DecidableEq, Repr

/-- Written from the spec's words for `totals_for_today`: the elementwise
sums of calories, protein, carbs and fats over exactly those of the
account's meal records whose stored date equals the current UTC calendar
date. -/
def specTotalsForToday (s : State) (email : String) : SpecTotals :=
  let recs := ((s.meals.map (·.2)).filter (fun m => m.email == email)).filter
    (fun m => m.created.take 10 == s.now.date)
  { calories := (recs.map (fun m => m.macros.calories)).sum,
    protein := (recs.map (fun m => m.macros.protein)).sum,
    carbs := (recs.map (fun m => m.macros.carbs)).sum,
    fats := (recs.map (fun m => m.macros.fats)).sum }

/-! ### Helper lemmas -/

theorem strLe_total (x y : List Char) : (strLe x y || strLe y x) = true := by
  induction x generalizing y with
  | nil => cases y <;> simp [strLe]
  | cons a as ih =>
    cases y with
    | nil => simp [strLe]
    | cons b bs =>
      rcases lt_trichotomy a b with h | h | h
      · simp [strLe, h, asymm h]
      · subst h
        simpa [strLe] using ih bs
      · simp [strLe, h, asymm h]

theorem strLe_trans (x y z : List Char) (hxy : strLe x y = true)
    (hyz : strLe y z = true) : strLe x z = true := by
  induction x generalizing y z with
  | nil => cases z <;> simp [strLe]
  | cons a as ih =>
    cases y with
    | nil => simp [strLe] at hxy
    | cons b bs =>
      cases z with
      | nil => simp [strLe] at hyz
      | cons c cs =>
        rcases lt_trichotomy a b with hab | hab | hab
        · rcases lt_trichotomy b c with hbc | hbc | hbc
          · simp [strLe, lt_trans hab hbc]
          · subst hbc
            simp [strLe, hab]
          · simp [strLe, hbc, asymm hbc] at hyz
        · subst hab
          rcases lt_trichotomy a c with hac | hac | hac
          · simp [strLe, hac]
          · subst hac
            simp [strLe] at hxy hyz ⊢
            exact ih bs cs hxy hyz
          · simp [strLe, hac, asymm hac] at hyz
        · simp [strLe, hab, asymm hab] at hxy

/-- Unfolds the `GET /today` accumulation loop into a filtered sum and a
filtered list. -/
theorem todayStep_foldl (d : List Char) (l : List MealDoc) (c : ℚ)
    (ms : List MealDoc) :
    l.foldl (todayStep d) (c, ms) =
      (c + ((l.filter (fun m => m.created.take 10 == d)).map
              (fun m => m.macros.calories)).sum,
       ms ++ l.filter (fun m => m.created.take 10 == d)) := by
  induction l generalizing c ms with
  | nil => simp
  | cons m rest ih =>
    by_cases h : m.created.take 10 == d
    · simp only [List.foldl_cons, todayStep, h, if_true, ih, List.filter_cons,
        List.map_cons, List.sum_cons]
      rw [add_assoc]
      simp
    · simp only [List.foldl_cons, todayStep, h, Bool.false_eq_true, if_false,
        ih, List.filter_cons]

/-- The number of stored meal documents owned by an account. -/
def ownedCount (s : State) (email : String) : Nat :=
  ((s.meals.map (·.2)).filter (fun m => m.email == email)).length

/-- The base macros of `POST /analyze`, derived from the byte length by
modulo arithmetic: calories, protein, carbs, fats. -/
def analyzeBase (sLen : Nat) : Nat × Nat × Nat × Nat :=
  (150 + sLen % 151, 5 + sLen % 16, 20 + sLen % 31, 5 + sLen % 11)

/-- The macros `POST /analyze` returns: the base values scaled by
`bowl_size / 100` and rounded as Python does. -/
def analyzeMacros (sLen : Nat) (bowl_size : Int) : Macros :=
  let b := analyzeBase sLen
  let factor : ℚ := (bowl_size : ℚ) / 100
  { calories := (pyRound ((b.1 : ℚ) * factor) : ℚ),
    protein := pyRound1 ((b.2.1 : ℚ) * factor),
    carbs := pyRound1 ((b.2.2.1 : ℚ) * factor),
    fats := pyRound1 ((b.2.2.2 : ℚ) * factor) }

/-! ### Concrete fixtures used by witnesses and counterexamples -/

def utc1 : UTC :=
  { date := "2026-10-12".data, clock := "T10:00:00".data, epoch := 1760263200 }

def utc2 : UTC :=
  { date := "2026-10-12".data, clock := "T11:30:00".data, epoch := 1760268600 }

def emptyState : State := { users := [], meals := [], now := utc1 }

def mac1 : Macros := { calories := 100, protein := 10, carbs := 20, fats := 5 }

def mac2 : Macros := { calories := 7, protein := 1, carbs := 2, fats := 3 }

/-- A meal logged on the current day of `utc1`. -/
def m1 : MealDoc :=
  { email := "a@x.com", name := "Pizza", macros := mac1,
    created := "2026-10-12".data ++ "T09:00:00".data }

/-- A meal logged the day before `utc1`. -/
def m2 : MealDoc :=
  { email := "a@x.com", name := "Old", macros := mac2,
    created := "2026-10-11".data ++ "T09:00:00".data }

def sMeals : State :=
  { users := [], meals := [(mealId "a@x.com" m1.created, m1),
                           (mealId "a@x.com" m2.created, m2)], now := utc1 }

def userA (g : Int) : UserDoc :=
  { name := some "Ann", email := some "a@x.com",
    password := some (hashpw "pw123"), goal := some g,
    bowl_size := some 250, target_weight := some 60 }

def sGoal2000 : State :=
  { users := [("a@x.com", userA 2000)], meals := [], now := utc1 }

def sGoal1234 : State :=
  { users := [("a@x.com", userA 1234)], meals := [], now := utc1 }

/-! ### Claims -/

/-- C2 counterexample: for an email with no account, `GET /get-goal` does
not fail with 404; it answers 200 with the default goal 2000. -/
theorem get_goal_missing_no_notfound :
    kvGet emptyState.users "ghost@x.com" = none ∧
    get_goal emptyState "ghost@x.com" = (emptyState, Out.ok { goal := 2000 }) :=
  ⟨rfl, rfl⟩

/-- C2 (amended): `get_goal` never fails; when the account does not exist it
returns the default goal 2000, and when it exists it returns the stored goal
(2000 when the field is absent), leaving the state unchanged. -/
theorem get_goal_missing_returns_default (s : State) (email : String) :
    (kvGet s.users email = none →
      get_goal s email = (s, Out.ok { goal := 2000 })) ∧
    (∀ u, kvGet s.users email = some u →
      get_goal s email = (s, Out.ok { goal := u.goal.getD 2000 })) := by
  constructor
  · intro h
    simp [get_goal, h]
  · intro u h
    simp [get_goal, h]

/-- C2 witness. -/
theorem get_goal_missing_returns_default_witness :
    get_goal emptyState "ghost@x.com" = (emptyState, Out.ok { goal := 2000 }) :=
  (get_goal_missing_returns_default emptyState "ghost@x.com").1 rfl

/-- C3 counterexample: `POST /add-meal` for an email with no account does
not fail with 404; it stores a meal record and reports success. -/
theorem add_meal_succeeds_without_account :
    kvGet emptyState.users "ghost@x.com" = none ∧
    (add_meal emptyState { name := "Pizza", macros := mac1 } "ghost@x.com").2 =
      Out.ok { ok := true, msg := "Meal added" } ∧
    (add_meal emptyState { name := "Pizza", macros := mac1 }
      "ghost@x.com").1.meals.length = 1 :=
  ⟨rfl, rfl, rfl⟩

/-- C3 (amended): `add_meal` performs no account-existence check: for every
state and every email, existing or not, it succeeds and stores a meal record
stamped with the current UTC timestamp, retrievable under its document id;
the `users` collection is untouched. -/
theorem add_meal_no_account_check (s : State) (data : MealReq) (email : String) :
    (add_meal s data email).2 = Out.ok { ok := true, msg := "Meal added" } ∧
    kvGet (add_meal s data email).1.meals (mealId email s.now.isoformat) =
      some { email := email, name := data.name, macros := data.macros,
             created := s.now.isoformat } ∧
    (add_meal s data email).1.users = s.users := by
  refine ⟨rfl, ?_, rfl⟩
  simp [add_meal, kvGet_kvSet_self]

/-- C4 counterexample: registering with the mixed-case, untrimmed email
`"A@X.com "` stores the account under that exact string; nothing is stored
under the lowercased, trimmed `"a@x.com"`. -/
theorem register_no_normalization :
    kvGet (register emptyState
        { name := "Ann", email := "A@X.com ", password := "pw123",
          bowl_size := 250, target_weight := 60 }).1.users "A@X.com " =
      some { name := some "Ann", email := some "A@X.com ",
             password := some (hashpw "pw123"), goal := some 2000,
             bowl_size := some 250, target_weight := some 60 } ∧
    kvGet (register emptyState
        { name := "Ann", email := "A@X.com ", password := "pw123",
          bowl_size := 250, target_weight := 60 }).1.users "a@x.com" = none ∧
    "A@X.com " ≠ "a@x.com" :=
  ⟨rfl, rfl, by decide⟩

/-- C4 (amended): `register` applies no normalization: for every fresh
email, the account is stored under the supplied email string verbatim. -/
theorem register_stores_email_verbatim (s : State) (data : RegisterReq)
    (h : kvGet s.users data.email = none) :
    (register s data).2 = Out.ok { ok := true, msg := "User registered successfully" } ∧
    kvGet (register s data).1.users data.email =
      some { name := some data.name, email := some data.email,
             password := some (hashpw data.password), goal := some 2000,
             bowl_size := some data.bowl_size,
             target_weight := some data.target_weight } := by
  constructor
  · simp [register, h]
  · simp [register, h, kvGet_kvSet_self]

/-- C4 witness. -/
theorem register_stores_email_verbatim_witness :
    kvGet (register emptyState
        { name := "Ann", email := "A@X.com ", password := "pw123",
          bowl_size := 250, target_weight := 60 }).1.users "A@X.com " =
      some { name := some "Ann", email := some "A@X.com ",
             password := some (hashpw "pw123"), goal := some 2000,
             bowl_size := some 250, target_weight := some 60 } :=
  (register_stores_email_verbatim emptyState
    { name := "Ann", email := "A@X.com ", password := "pw123",
      bowl_size := 250, target_weight := 60 } rfl).2

/-- C6: `set_goal` rejects a non-positive goal with 400 and changes nothing;
for a positive goal it stores the goal (leaving meals untouched) and returns
it. -/
theorem set_goal_validation (s : State) (data : GoalReq) (email : String) :
    (data.goal ≤ 0 →
      set_goal s data email = (s, Out.err 400 "Goal must be positive")) ∧
    (0 < data.goal →
      (set_goal s data email).2 = Out.ok { ok := true, goal := data.goal } ∧
      (kvGet (set_goal s data email).1.users email).map (·.goal) =
        some (some data.goal) ∧
      (set_goal s data email).1.meals = s.meals) := by
  constructor
  · intro h
    simp [set_goal, h]
  · intro h
    have hn : ¬ data.goal ≤ 0 := not_le.mpr h
    refine ⟨by simp [set_goal, hn], ?_, by simp [set_goal, hn]⟩
    cases hu : kvGet s.users email with
    | none => simp [set_goal, hn, hu, kvGet_kvSet_self]
    | some u => simp [set_goal, hn, hu, kvGet_kvSet_self]

/-- C6 witness: both branches at concrete inputs. -/
theorem set_goal_validation_witness :
    set_goal emptyState { goal := 0 } "a@x.com" =
      (emptyState, Out.err 400 "Goal must be positive") ∧
    (set_goal emptyState { goal := 2200 } "a@x.com").2 =
      Out.ok { ok := true, goal := 2200 } :=
  ⟨(set_goal_validation emptyState { goal := 0 } "a@x.com").1 (by decide),
   ((set_goal_validation emptyState { goal := 2200 } "a@x.com").2 (by decide)).1⟩

/-- C1 counterexample: on a state whose single today-record has calories
100, protein 10, carbs 20, fats 5, the `GET /today` response carries the
single aggregate 100 (the calorie sum) next to the raw records; the
protein/carbs/fats sums the claim says are returned appear as no aggregate
of the response (its one total, 100, is not the protein sum 10). -/
theorem today_not_four_sums :
    (today sMeals "a@x.com").2 =
      Out.ok { email := "a@x.com", date := utc1.date, calories := 100,
               meals := [m1] } ∧
    specTotalsForToday sMeals "a@x.com" =
      { calories := 100, protein := 10, carbs := 20, fats := 5 } ∧
    (100 : ℚ) ≠ 10 := by
  refine ⟨?_, ?_, by norm_num⟩
  · have h1 : (today sMeals "a@x.com").2 =
        Out.ok { email := "a@x.com", date := utc1.date,
                 calories := 0 + mac1.calories, meals := [m1] } := rfl
    rw [h1]
    norm_num [mac1]
  · have h2 : specTotalsForToday sMeals "a@x.com" =
        { calories := mac1.calories + 0, protein := mac1.protein + 0,
          carbs := mac1.carbs + 0, fats := mac1.fats + 0 } := rfl
    rw [h2]
    norm_num [mac1]

/-- C1 (amended): the `GET /today` response aggregates only calories: its
`calories` field is the calorie sum over exactly the account's records
whose stored date (`created[:10]`) equals the current UTC date (zero when
there are none, a sum over the empty list), its `meals` field is exactly
those records, and no protein/carbs/fats totals are part of the response. -/
theorem today_totals_calories_only (s : State) (email : String) :
    (today s email).2 = Out.ok
      { email := email, date := s.now.date,
        calories := (specTotalsForToday s email).calories,
        meals := ((s.meals.map (·.2)).filter (fun m => m.email == email)).filter
          (fun m => m.created.take 10 == s.now.date) } ∧
    (today s email).1 = s := by
  refine ⟨?_, rfl⟩
  simp [today, specTotalsForToday, todayStep_foldl]

/-- C5 counterexample: two states that differ only in the stored goal (2000
vs 1234) produce identical successful login responses, so the response does
not carry the current goal. -/
theorem login_response_lacks_goal :
    (login sGoal2000 { email := "a@x.com", password := "pw123" }).2 =
      Out.ok { ok := true, token := create_access_token "a@x.com" utc1.epoch,
               email := "a@x.com", name := "Ann", bowl_size := 250,
               target_weight := 60 } ∧
    (login sGoal2000 { email := "a@x.com", password := "pw123" }).2 =
      (login sGoal1234 { email := "a@x.com", password := "pw123" }).2 ∧
    (kvGet sGoal2000.users "a@x.com").map (·.goal) ≠
      (kvGet sGoal1234.users "a@x.com").map (·.goal) :=
  ⟨rfl, rfl, by decide⟩

/-- C5 (amended): on states whose user documents carry the password and
email fields (as `register` writes them), `login` fails with 401 exactly
when no account exists for the email or the password check fails against the
stored hash; on success it returns the profile fields and a freshly issued
token — but not the stored goal, which appears nowhere in the response. -/
theorem login_auth_iff (s : State) (data : LoginReq)
    (hwf : ∀ k u, kvGet s.users k = some u →
      (∃ p, u.password = some p) ∧ (∃ e, u.email = some e)) :
    ((login s data).2 = Out.err 401 "Invalid credentials" ↔
      kvGet s.users data.email = none ∨
      ∃ u p, kvGet s.users data.email = some u ∧ u.password = some p ∧
        checkpw data.password p = false) ∧
    (∀ u p e, kvGet s.users data.email = some u → u.password = some p →
      u.email = some e → checkpw data.password p = true →
      (login s data).2 = Out.ok
        { ok := true, token := create_access_token e s.now.epoch, email := e,
          name := u.name.getD "", bowl_size := u.bowl_size.getD 250,
          target_weight := u.target_weight.getD 0 }) ∧
    (login s data).1 = s := by
  rcases hu : kvGet s.users data.email with _ | u
  · refine ⟨?_, ?_, ?_⟩
    · simp [login, hu]
    · intro u p e h
      cases h
    · simp [login, hu]
  · obtain ⟨⟨p, hp⟩, e, he⟩ := hwf data.email u hu
    refine ⟨?_, ?_, ?_⟩
    · cases hc : checkpw data.password p with
      | false =>
        constructor
        · intro _
          exact Or.inr ⟨u, p, rfl, hp, hc⟩
        · intro _
          simp [login, hu, hp, hc]
      | true =>
        constructor
        · intro hbad
          simp [login, hu, hp, hc, he] at hbad
        · rintro (h | ⟨u', p', hu', hp', hc'⟩)
          · cases h
          · injection hu' with h'
            subst h'
            rw [hp] at hp'
            injection hp' with h''
            subst h''
            rw [hc] at hc'
            cases hc'
    · intro u' p' e' hu' hp' he' hc'
      injection hu' with h'
      subst h'
      simp [login, hu, hp', hc', he']
    · cases hc : checkpw data.password p with
      | false => simp [login, hu, hp, hc]
      | true => simp [login, hu, hp, hc, he]

/-- C5 witness: a successful login on a registered account. -/
theorem login_auth_iff_witness :
    (login sGoal2000 { email := "a@x.com", password := "pw123" }).2 =
      Out.ok { ok := true, token := create_access_token "a@x.com" utc1.epoch,
               email := "a@x.com", name := "Ann", bowl_size := 250,
               target_weight := 60 } := by
  refine (login_auth_iff sGoal2000 { email := "a@x.com", password := "pw123" }
    ?_).2.1 (userA 2000) "pw123" "a@x.com" rfl rfl rfl rfl
  intro k u hk
  by_cases hb : (("a@x.com" : String) == k)
  · simp only [sGoal2000, kvGet, hb, if_true] at hk
    cases hk
    exact ⟨⟨"pw123", rfl⟩, "a@x.com", rfl⟩
  · simp [sGoal2000, kvGet, hb] at hk

/-- C7 counterexample: a bearer token signed with the server key and far
from expiry, but carrying no `sub` claim, is rejected with 401 — a fourth
failure condition beyond missing bearer, bad signature and expiry. -/
theorem authenticate_rejects_subjectless_token :
    get_current_user
      (.bearer { payload := { sub := none, exp := 9999999999 },
                 key := "supersecretkey" }) 0 = Out.err 401 "Invalid token" ∧
    ({ payload := { sub := none, exp := 9999999999 },
       key := "supersecretkey" } : Jwt).key = SECRET_KEY ∧
    ¬ (9999999999 : Nat) < 0 :=
  ⟨rfl, rfl, by decide⟩

/-- C7 (amended): `create_access_token` embeds subject = email and expiry =
now + 24 hours under the server key; `get_current_user` succeeds exactly on
a bearer token signed with the server key, unexpired, and carrying a
non-empty subject — in which case it returns that embedded subject — and
every failure is a 401. -/
theorem session_gate_spec (email : String) (now : Nat) (h : AuthHeader)
    (nowE : Nat) :
    create_access_token email now =
      { payload := { sub := some email, exp := now + 86400 },
        key := SECRET_KEY } ∧
    ((∃ e, get_current_user h nowE = Out.ok e) ↔
      ∃ j e, h = .bearer j ∧ j.key = SECRET_KEY ∧ ¬ j.payload.exp < nowE ∧
        j.payload.sub = some e ∧ e ≠ "") ∧
    (∀ e, get_current_user h nowE = Out.ok e →
      ∃ j, h = .bearer j ∧ j.payload.sub = some e) ∧
    ((∃ e, get_current_user h nowE = Out.ok e) ∨
      ∃ d, get_current_user h nowE = Out.err 401 d) := by
  refine ⟨by simp [create_access_token, ACCESS_TOKEN_EXPIRE_MINUTES], ?_, ?_, ?_⟩
  · cases h with
    | missing => simp [get_current_user]
    | notBearer => simp [get_current_user]
    | bearerMalformed => simp [get_current_user]
    | bearer j =>
      by_cases hk : j.key = SECRET_KEY
      · by_cases hexp : j.payload.exp < nowE
        · simp [get_current_user, hk, hexp]
        · cases hsub : j.payload.sub with
          | none => simp [get_current_user, hk, hexp, hsub]
          | some e0 =>
            by_cases he0 : e0 = ""
            · subst he0
              simp [get_current_user, hk, hexp, hsub]
            · constructor
              · intro _
                exact ⟨j, e0, rfl, hk, hexp, hsub, he0⟩
              · intro _
                exact ⟨e0, by simp [get_current_user, hk, hexp, hsub, he0]⟩
      · simp [get_current_user, hk]
  · intro e he
    cases h with
    | missing => cases he
    | notBearer => cases he
    | bearerMalformed => cases he
    | bearer j =>
      refine ⟨j, rfl, ?_⟩
      by_cases hk : j.key = SECRET_KEY
      · by_cases hexp : j.payload.exp < nowE
        · simp [get_current_user, hk, hexp] at he
        · cases hsub : j.payload.sub with
          | none => simp [get_current_user, hk, hexp, hsub] at he
          | some e0 =>
            by_cases he0 : e0 = ""
            · subst he0
              simp [get_current_user, hk, hexp, hsub] at he
            · simp [get_current_user, hk, hexp, hsub, he0] at he
              exact congrArg some he
      · simp [get_current_user, hk] at he
  · cases h with
    | missing => exact Or.inr ⟨"Missing token", rfl⟩
    | notBearer => exact Or.inr ⟨"Missing token", rfl⟩
    | bearerMalformed => exact Or.inr ⟨"Invalid token", rfl⟩
    | bearer j =>
      by_cases hk : j.key = SECRET_KEY
      · by_cases hexp : j.payload.exp < nowE
        · exact Or.inr ⟨"Token expired", by simp [get_current_user, hk, hexp]⟩
        · cases hsub : j.payload.sub with
          | none =>
            exact Or.inr ⟨"Invalid token", by simp [get_current_user, hk, hexp, hsub]⟩
          | some e0 =>
            by_cases he0 : e0 = ""
            · subst he0
              exact Or.inr ⟨"Invalid token", by simp [get_current_user, hk, hexp, hsub]⟩
            · exact Or.inl ⟨e0, by simp [get_current_user, hk, hexp, hsub, he0]⟩
      · exact Or.inr ⟨"Invalid token", by simp [get_current_user, hk]⟩

/-- C7 witness: a token freshly issued for an address authenticates before
its expiry and yields that address. -/
theorem session_gate_spec_witness :
    ∃ e, get_current_user (.bearer (create_access_token "a@x.com" 0)) 0 =
      Out.ok e :=
  (session_gate_spec "a@x.com" 0
      (.bearer (create_access_token "a@x.com" 0)) 0).2.1.mpr
    ⟨create_access_token "a@x.com" 0, "a@x.com", rfl, rfl, by decide, rfl,
     by decide⟩

/-- C8: `GET /history` returns the account's stored meal records sorted
descending by creation timestamp, its length equals the number of stored
records of that account, and each `add_meal` under a fresh document id
(distinct creation timestamp) grows exactly that account's record count by
one — so the length equals the number of meals ever logged. -/
theorem history_sorted_and_counts (s : State) (email : String) :
    (∃ resp, (get_history s email).2 = Out.ok resp ∧
      resp.meals.Pairwise (fun a b => strLe b.created a.created = true) ∧
      resp.meals.length = ownedCount s email) ∧
    (∀ (c : UTC) (data : MealReq) (e' : String),
      kvGet s.meals (mealId e' c.isoformat) = none →
      ownedCount (add_meal { s with now := c } data e').1 email =
        ownedCount s email + (if e' == email then 1 else 0)) := by
  constructor
  · refine ⟨_, rfl, ?_, ?_⟩
    · exact List.sorted_mergeSort
        (fun a b c hab hbc => strLe_trans c.created b.created a.created hbc hab)
        (fun a b => strLe_total b.created a.created) _
    · simp [ownedCount, List.length_mergeSort]
  · intro c data e' hfresh
    simp only [add_meal]
    rw [kvSet_of_kvGet_none _ _ _ hfresh]
    by_cases he : (e' == email)
    · simp [ownedCount, List.filter_append, he]
    · simp [ownedCount, List.filter_append, he]

/-- C8 witness: logging a meal at a fresh timestamp grows the account's
record count from 2 to 3. -/
theorem history_sorted_and_counts_witness :
    ownedCount (add_meal { sMeals with now := utc2 }
      { name := "Soup", macros := mac2 } "a@x.com").1 "a@x.com" =
      ownedCount sMeals "a@x.com" + 1 := by
  have h := (history_sorted_and_counts sMeals "a@x.com").2 utc2
    { name := "Soup", macros := mac2 } "a@x.com" rfl
  exact h

/-- C9: on an existing account, `POST /analyze` returns macros obtained by
modulo arithmetic from the byte length of the decoded image (`analyzeBase`)
scaled by the stored `bowl_size / 100` (`analyzeMacros`), and reaches the
state `add_meal` (`POST /add-meal`) would produce for that meal — the same
append path. -/
theorem analyze_same_append_path (s : State) (req : AnalyzeReq)
    (email : String) (u : UserDoc) (hu : kvGet s.users email = some u) :
    (analyze s req email).2 = Out.ok
      { ok := true,
        macros := analyzeMacros ((b64decodeLen req.image).getD 25000)
          (u.bowl_size.getD 250),
        bowl_size := u.bowl_size.getD 250 } ∧
    (analyze s req email).1 =
      (add_meal s
        { name := "Bowl Meal",
          macros := analyzeMacros ((b64decodeLen req.image).getD 25000)
            (u.bowl_size.getD 250) } email).1 := by
  constructor <;> simp [analyze, add_meal, hu, analyzeMacros, analyzeBase]

/-- C9 witness: analyzing a five-byte image (`"aGVsbG8="`) on a registered
account with bowl size 250. -/
theorem analyze_same_append_path_witness :
    (analyze sGoal2000 { image := "aGVsbG8=" } "a@x.com").2 = Out.ok
      { ok := true, macros := analyzeMacros 5 250, bowl_size := 250 } :=
  (analyze_same_append_path sGoal2000 { image := "aGVsbG8=" } "a@x.com"
    (userA 2000) rfl).1

/-- C10: when the image field is not valid base64, `POST /analyze` on an
existing account does not fail: the byte length falls back to 25000, the
meal is computed from that constant, persisted under its document id, and
returned as on the success path. -/
theorem analyze_invalid_base64_fallback (s : State) (req : AnalyzeReq)
    (email : String) (u : UserDoc) (hu : kvGet s.users email = some u)
    (hbad : b64decodeLen req.image = none) :
    (analyze s req email).2 = Out.ok
      { ok := true, macros := analyzeMacros 25000 (u.bowl_size.getD 250),
        bowl_size := u.bowl_size.getD 250 } ∧
    kvGet (analyze s req email).1.meals (mealId email s.now.isoformat) =
      some { email := email, name := "Bowl Meal",
             macros := analyzeMacros 25000 (u.bowl_size.getD 250),
             created := s.now.isoformat } := by
  constructor <;>
    simp [analyze, hu, hbad, analyzeMacros, analyzeBase, kvGet_kvSet_self]

/-- C10 witness: `"abc"` is not valid base64 (its length is 3 after
filtering), yet analyze succeeds with the 25000-byte fallback. -/
theorem analyze_invalid_base64_fallback_witness :
    (analyze sGoal2000 { image := "abc" } "a@x.com").2 = Out.ok
      { ok := true, macros := analyzeMacros 25000 250, bowl_size := 250 } :=
  (analyze_invalid_base64_fallback sGoal2000 { image := "abc" } "a@x.com"
    (userA 2000) rfl rfl).1

end Nutrimate
